import Mathlib

/-!
Shallow embedding of the TestSuite framework (`src/framework.py`).

Python objects are modelled as Lean structures; mutation of the aliased
`Suite` object is modelled by explicit state passing: every operation takes
the current `Suite` value and returns the updated one.  A Python function
that may `raise` is modelled with `Except PyExc` (for operations whose raise
propagates) or with an `Option PyExc` field (for the outcome of calling a
user callback).  Machine-level details (threads, real I/O) do not occur in
the modelled code paths.
-/

namespace Framework

/-- A Python exception, identified by the name of its class and its message.
The class hierarchy is modelled flat: an `except C` clause matches exactly
the exceptions whose `kind` is `C` (the modelled programs only ever compare
unrelated exception classes). -/
structure PyExc where
  kind : String
  msg : String
deriving Repr, DecidableEq

/-- The helper ("context") object handed to setup/test/teardown.
`blank` is an instance of the `BlankObject` class created by `_Helper.null`;
`obj tag` stands for an instance of a user-registered helper class. -/
inductive HelperVal where
  | blank
  | obj (tag : Nat)
deriving Repr, DecidableEq

/-- The observable effect of one invocation of a user callback: the text it
printed, and the exception it raised (`none` when it returned normally). -/
structure CallResult where
  output : String
  exc : Option PyExc
deriving Repr, DecidableEq

/-- A raw Python function as the framework sees it: its `__name__`, the list
`inspect.getargspec(function)[0]` of declared positional parameter names,
and its behaviour.  The behaviour receives `some h` when the function is
invoked with the helper as its single argument and `none` when it is invoked
with no arguments. -/
structure PyCallable where
  name : String
  argNames : List String
  body : Option HelperVal → CallResult

/-- A Python class as the framework sees it: its `__name__` and the outcome
of calling it with no arguments (`cls()`), which either returns an instance
or raises. -/
structure PyClass where
  name : String
  construct : Except PyExc HelperVal

/-- Embeds the stdlib function `traceback.format_exc` (external code,
modelled from the spec: the formatted trace text contains the name of the
type of the raised error, followed by its message). -/
def format_exc (e : PyExc) : String :=
  "Traceback (most recent call last):\n  ...\n" ++ e.kind ++ (": " ++ e.msg)

/-- `_Function`: the lifecycle-function wrapper of `framework.py`. -/
structure _Function where
  function : PyCallable
  name : String
  role : String
  use_helper : Bool

/-- The message of the arity `ValueError`; `role.title()` is modelled by
`String.capitalize`, which agrees with Python on the one-word role tags used
by the framework. -/
def arityMessage (role : String) (nm : String) : String :=
  role.capitalize ++ " function " ++ nm ++
    "() must accept either 0 or 1 arguments."

/-- `_Function.__init__`: inspects the declared parameter count once; arity 0
sets `use_helper := false`, arity 1 sets `use_helper := true`, anything else
raises `ValueError` (the ArityError of the spec). -/
def _Function.make (f : PyCallable) (role : String) : Except PyExc _Function :=
  if f.argNames.length = 0 then
    .ok ⟨f, f.name, role, false⟩
  else if f.argNames.length = 1 then
    .ok ⟨f, f.name, role, true⟩
  else
    .error ⟨"ValueError", arityMessage role f.name⟩

/-- `_Function.__call__`: dispatches on the cached `use_helper` flag. -/
def _Function.call (fn : _Function) (h : HelperVal) : CallResult :=
  fn.function.body (if fn.use_helper then some h else none)

/-- The callable `lambda: None` used by `_Function.null`: zero parameters,
prints nothing, returns normally. -/
def nullCallable : PyCallable :=
  ⟨"<lambda>", [], fun _ => ⟨"", none⟩⟩

/-- `_Function.null()`: wraps `lambda: None` with role `null` (arity 0, so
`use_helper := false`, exactly what `_Function.__init__` computes for it). -/
def _Function.null : _Function :=
  ⟨nullCallable, "<lambda>", "null", false⟩

/-- `_Helper`: the helper-factory wrapper of `framework.py`. -/
structure _Helper where
  cls : PyClass
  name : String

/-- `_Helper.instantiate`: calls the wrapped class; any error from the
constructor is replaced by a `ValueError` naming the class (the
InstantiationError of the spec). -/
def _Helper.instantiate (h : _Helper) : Except PyExc HelperVal :=
  match h.cls.construct with
  | .ok v => .ok v
  | .error _ =>
      .error ⟨"ValueError", "Unable to instantiate a " ++ h.name ++ "() helper."⟩

/-- The class `BlankObject` created inside `_Helper.null`: constructing it
always succeeds and yields an attribute-less object. -/
def blankObjectClass : PyClass :=
  ⟨"BlankObject", .ok .blank⟩

/-- `_Helper.null()`. -/
def _Helper.null : _Helper :=
  ⟨blankObjectClass, "BlankObject"⟩

/-- The replacement of underscores by spaces performed by `Test.__init__`
via `str.replace`, implemented over the character list so that it evaluates
inside the kernel. -/
def underscoresToSpaces (s : String) : String :=
  ⟨s.data.map fun c => if c = '_' then ' ' else c⟩

/-- Split a character list into its space-separated words. -/
def words (acc : List Char) : List Char → List (List Char)
  | [] => if acc.isEmpty then [] else [acc.reverse]
  | c :: rest =>
    if c = ' ' then
      if acc.isEmpty then words [] rest else acc.reverse :: words [] rest
    else words (c :: acc) rest

/-- Python `str.capitalize`: first character upper-cased, the rest
lower-cased. -/
def capitalizeWord : List Char → List Char
  | [] => []
  | c :: rest => c.toUpper :: rest.map Char.toLower

/-- Join words with single spaces. -/
def joinWords : List (List Char) → List Char
  | [] => []
  | [w] => w
  | w :: ws => w ++ ' ' :: joinWords ws

/-- `string.capwords` applied in `Test.__init__`: split on whitespace,
capitalize each word, rejoin with single spaces. -/
def capwords (s : String) : String :=
  ⟨joinWords ((words [] s.data).map capitalizeWord)⟩

/-- A registered `Test`.  In the source a `Test` stores `self.suite`, a
reference to the one mutable `Suite` object; because `Test.run` reads the
current setup/teardown/helper through that reference, the embedding passes
the current `Suite` state to `Test.run` instead of storing a snapshot. -/
structure Test where
  function : _Function
  title : String

/-- `Test.__init__` without the suite back-reference (see `Test`): wraps the
function with role `test` (which validates arity and may raise) and derives
the display title. -/
def Test.make (f : PyCallable) : Except PyExc Test :=
  match _Function.make f "test" with
  | .error e => .error e
  | .ok fn => .ok ⟨fn, capwords (underscoresToSpaces fn.name)⟩

/-- `Test.Result` (the nested class).  The back-reference `self.test` is
omitted from the embedding; the copied `title` is kept. -/
structure Result where
  title : String
  success : Bool
  output : String
  traceback : String
deriving Repr, DecidableEq

/-- `Test.Result.__nonzero__`: the boolean coercion of a result (Python 2
truthiness hook, which this code base targets). -/
def Result.nonzero (r : Result) : Bool :=
  r.success

/-- `Test.Success`: success flag true, empty traceback. -/
def Test.Success (t : Test) (output : String) : Result :=
  ⟨t.title, true, output, ""⟩

/-- `Test.Failure`: success flag false, traceback as given. -/
def Test.Failure (t : Test) (output : String) (tb : String) : Result :=
  ⟨t.title, false, output, tb⟩

/-- The `Suite` object state.  Field names follow the source attributes. -/
structure Suite where
  title : String
  finished : Bool
  stop_on_error : Bool
  _tests : List Test
  _skips : List _Function
  _results : List Result
  _setup : _Function
  _teardown : _Function
  _helper : _Helper

/-- `Suite.__init__`. -/
def Suite.init (title : String) (stop_on_error : Bool) : Suite :=
  ⟨title, false, stop_on_error, [], [], [], _Function.null, _Function.null,
    _Helper.null⟩

/-- `Suite.test`: builds a `Test` (which may raise an arity `ValueError`
before anything is appended) and appends it.  An `.error` return leaves the
caller holding the unchanged suite, mirroring that the Python raise happens
before the mutation. -/
def Suite.test (s : Suite) (f : PyCallable) : Except PyExc Suite :=
  match Test.make f with
  | .error e => .error e
  | .ok t => .ok { s with _tests := s._tests ++ [t] }

/-- `Suite.skip`. -/
def Suite.skip (s : Suite) (f : PyCallable) : Except PyExc Suite :=
  match _Function.make f "skipped" with
  | .error e => .error e
  | .ok fn => .ok { s with _skips := s._skips ++ [fn] }

/-- `Suite.setup`: replaces the suite-wide setup binding. -/
def Suite.setup (s : Suite) (f : PyCallable) : Except PyExc Suite :=
  match _Function.make f "setup" with
  | .error e => .error e
  | .ok fn => .ok { s with _setup := fn }

/-- `Suite.teardown`: replaces the suite-wide teardown binding. -/
def Suite.teardown (s : Suite) (f : PyCallable) : Except PyExc Suite :=
  match _Function.make f "teardown" with
  | .error e => .error e
  | .ok fn => .ok { s with _teardown := fn }

/-- `Suite.helper`: replaces the suite-wide helper factory (`_Helper.__init__`
stores the class and its name and cannot raise). -/
def Suite.helper (s : Suite) (c : PyClass) : Suite :=
  { s with _helper := ⟨c, c.name⟩ }

/-- `Suite.__iter__`: `assert self.finished` then iterate the results; the
failed assert is an `AssertionError`. -/
def Suite.iter (s : Suite) : Except PyExc (List Result) :=
  if s.finished then .ok s._results else .error ⟨"AssertionError", ""⟩

/-- What one call of `Test.run` does: either a `Result` (the normal return)
or a propagating exception, together with the ghost trace of the names of
the user functions invoked, in invocation order. -/
structure TestRun where
  outcome : Except PyExc Result
  trace : List String

/-- `Test.run`: reads the setup, teardown and helper factory from the suite
the test belongs to at the moment of the run; instantiates the helper (a
raise there propagates: it happens before the output-capture scope and the
try/except are entered); then, inside the capture scope, runs
setup, test function, teardown, stopping at the first raise, which is
converted into a `Failure` result holding the captured output so far and the
formatted trace.  The output-capture collaborator (`muffler.Muffler`,
external code, modelled from the spec) is embedded as the concatenation of
the text printed by the calls made inside the scope. -/
def Test.run (t : Test) (s : Suite) : TestRun :=
  match s._helper.instantiate with
  | .error e => ⟨.error e, []⟩
  | .ok helper =>
    let c1 := s._setup.call helper
    match c1.exc with
    | some e => ⟨.ok (Test.Failure t c1.output (format_exc e)), [s._setup.name]⟩
    | none =>
      let c2 := t.function.call helper
      match c2.exc with
      | some e =>
          ⟨.ok (Test.Failure t (c1.output ++ c2.output) (format_exc e)),
            [s._setup.name, t.function.name]⟩
      | none =>
        let c3 := s._teardown.call helper
        match c3.exc with
        | some e =>
            ⟨.ok (Test.Failure t (c1.output ++ c2.output ++ c3.output)
                (format_exc e)),
              [s._setup.name, t.function.name, s._teardown.name]⟩
        | none =>
            ⟨.ok (Test.Success t (c1.output ++ c2.output ++ c3.output)),
              [s._setup.name, t.function.name, s._teardown.name]⟩

/-- What one call of `Suite.run` does: the suite state afterwards (the
mutations already performed when a raise escapes are kept, as in Python),
the list of arguments the callback was invoked with, in order, and the
exception that propagated out of `run`, if any. -/
structure RunOutcome where
  suite : Suite
  calls : List Result
  raised : Option PyExc

/-- The message of the `ValueError` raised by `Suite.run` when no tests are
registered (the NoTestsError of the spec).  The `text.wrap` collaborator
(external code, modelled from the spec: a paragraph-wrapping formatter) is
embedded as plain concatenation of its fragments. -/
def noTestsMessage (title : String) : String :=
  "\nThe \x27" ++ title ++ "\x27 suite does not have any " ++
  "tests to run. If you are using your own test suite, " ++
  "you can get this error by forgetting to pass it into " ++
  "the run() function."

/-- The loop of `Suite.run` over the remaining tests: run the test (a raise
from `Test.run` propagates, leaving the state as it was), invoke the
callback, append the result to `self._results`, and stop early when the
result is falsy and `stop_on_error` is set; after the loop (normal or early
exit) set `finished := true`. -/
def Suite.runFrom (s : Suite) : List Test → List Result → RunOutcome
  | [], calls => ⟨{ s with finished := true }, calls, none⟩
  | t :: rest, calls =>
    match (t.run s).outcome with
    | .error e => ⟨s, calls, some e⟩
    | .ok r =>
      let s2 := { s with _results := s._results ++ [r] }
      if r.nonzero = false ∧ s.stop_on_error = true then
        ⟨{ s2 with finished := true }, calls ++ [r], none⟩
      else
        Suite.runFrom s2 rest (calls ++ [r])

/-- `Suite.run`: raise a `ValueError` when no tests are registered (before
any test runs, any callback call, or any result append), otherwise run the
loop.  (The local variable `results = []` of the source is dead and not
modelled.) -/
def Suite.run (s : Suite) : RunOutcome :=
  if s._tests.isEmpty then
    ⟨s, [], some ⟨"ValueError", noTestsMessage s.title⟩⟩
  else
    s.runFrom s._tests []

/-- `expect(exception)` composed with the `contextlib.contextmanager`
protocol, as a function from what the guarded scope raised (`none` when it
raised nothing) to what the `with` statement raises (`none` when it exits
normally).  When the scope raises nothing the generator simply resumes after
`yield` and finishes, so nothing is raised; an exception of the expected
kind is swallowed by the first `except` clause; any other exception hits the
bare `except` clause, which raises a fresh `AssertionError` whose message
interpolates the expected exception. -/
def expect (exception : String) (bodyExc : Option PyExc) : Option PyExc :=
  match bodyExc with
  | none => none
  | some e =>
    if e.kind = exception then none
    else some ⟨"AssertionError",
      "Unknown exception \x27" ++ exception ++ "\x27 raised."⟩

/-- The public operations through which client code drives a `Suite` after
`Suite.__init__`; used to describe the reachable states of a suite. -/
inductive Op where
  | test (f : PyCallable)
  | skip (f : PyCallable)
  | setup (f : PyCallable)
  | teardown (f : PyCallable)
  | helper (c : PyClass)
  | run

/-- Whether an operation is the `run` operation. -/
def Op.isRun : Op → Bool
  | .run => true
  | _ => false

/-- State reached after a registration call: on a raise the mutation never
happened, so the suite is unchanged. -/
def regOr (s : Suite) : Except PyExc Suite → Suite
  | .ok s2 => s2
  | .error _ => s

/-- The suite state after one public operation. -/
def applyOp (s : Suite) : Op → Suite
  | .test f => regOr s (s.test f)
  | .skip f => regOr s (s.skip f)
  | .setup f => regOr s (s.setup f)
  | .teardown f => regOr s (s.teardown f)
  | .helper c => s.helper c
  | .run => (s.run).suite

/-- The suite state after a sequence of public operations. -/
def applyOps (s : Suite) (ops : List Op) : Suite :=
  ops.foldl applyOp s

/-- How many `run` operations a sequence contains. -/
def countRun : List Op → Nat
  | [] => 0
  | op :: rest => (if op.isRun then 1 else 0) + countRun rest

/-! Helper lemmas about `Test.run` and the `Suite.run` loop. -/

/-- `Test.run` reads only the binding fields of the suite, not its results
list. -/
theorem Test.run_results_update (t : Test) (s : Suite) (x : List Result) :
    t.run { s with _results := x } = t.run s := rfl

/-- When the helper factory instantiates, `Test.run` returns a `Result`: the
try/except inside the capture scope converts every raise into a `Failure`. -/
theorem Test.run_ok_of_instantiate_ok (t : Test) (s : Suite) (hv : HelperVal)
    (h : s._helper.instantiate = .ok hv) : ∃ r, (t.run s).outcome = .ok r := by
  simp only [Test.run, h]
  cases (s._setup.call hv).exc with
  | some e => exact ⟨_, rfl⟩
  | none =>
    cases (t.function.call hv).exc with
    | some e => exact ⟨_, rfl⟩
    | none =>
      cases (s._teardown.call hv).exc with
      | some e => exact ⟨_, rfl⟩
      | none => exact ⟨_, rfl⟩

/-- An exception escapes `Test.run` only when helper instantiation raised
it. -/
theorem Test.run_error_elim (t : Test) (s : Suite) (e : PyExc)
    (h : (t.run s).outcome = .error e) : s._helper.instantiate = .error e := by
  cases hi : s._helper.instantiate with
  | error e' =>
    have h2 : (t.run s).outcome = .error e' := by simp only [Test.run, hi]
    have h3 : e' = e := Except.error.inj (h2 ▸ h)
    subst h3
    rfl
  | ok hv =>
    obtain ⟨r, hr⟩ := Test.run_ok_of_instantiate_ok t s hv hi
    rw [hr] at h
    exact absurd h (by simp)

/-- When an exception escapes the `Suite.run` loop, it escaped on the first
pending test, before any callback call or result append of this loop. -/
theorem Suite.runFrom_raised (s : Suite) (ts : List Test) (acc : List Result)
    (e : PyExc) (h : (s.runFrom ts acc).raised = some e) :
    (s.runFrom ts acc).suite = s ∧ (s.runFrom ts acc).calls = acc ∧
      s._helper.instantiate = .error e := by
  induction ts generalizing s acc with
  | nil => simp [Suite.runFrom] at h
  | cons t rest ih =>
    rcases hout : (t.run s).outcome with e' | r
    · have hrun : s.runFrom (t :: rest) acc = ⟨s, acc, some e'⟩ := by
        simp only [Suite.runFrom, hout]
      rw [hrun] at h ⊢
      cases h
      exact ⟨rfl, rfl, Test.run_error_elim t s e hout⟩
    · have hinst : ∃ hv, s._helper.instantiate = .ok hv := by
        cases hi : s._helper.instantiate with
        | error e0 =>
          have : (t.run s).outcome = .error e0 := by simp only [Test.run, hi]
          rw [this] at hout
          exact absurd hout (by simp)
        | ok hv => exact ⟨hv, rfl⟩
      by_cases hstop : r.nonzero = false ∧ s.stop_on_error = true
      · have hrun : s.runFrom (t :: rest) acc =
            ⟨{ s with _results := s._results ++ [r], finished := true },
              acc ++ [r], none⟩ := by
          simp only [Suite.runFrom, hout, if_pos hstop]
        rw [hrun] at h
        simp at h
      · have hrun : s.runFrom (t :: rest) acc =
            Suite.runFrom { s with _results := s._results ++ [r] } rest
              (acc ++ [r]) := by
          simp only [Suite.runFrom, hout, if_neg hstop]
        rw [hrun] at h
        obtain ⟨hv, hiv⟩ := hinst
        have := (ih { s with _results := s._results ++ [r] } (acc ++ [r]) h).2.2
        simp only at this
        rw [hiv] at this
        exact absurd this (by simp)

/-- When the `Suite.run` loop completes without a raise, it appends to the
results exactly the list of results it passed to the callback during this
loop, at most one per pending test, and marks the suite finished. -/
theorem Suite.runFrom_done (s : Suite) (ts : List Test) (acc : List Result)
    (h : (s.runFrom ts acc).raised = none) :
    ∃ L : List Result,
      (s.runFrom ts acc).suite =
        { s with _results := s._results ++ L, finished := true } ∧
      (s.runFrom ts acc).calls = acc ++ L ∧ L.length ≤ ts.length := by
  induction ts generalizing s acc with
  | nil =>
    refine ⟨[], ?_, by simp [Suite.runFrom], by simp⟩
    simp [Suite.runFrom]
  | cons t rest ih =>
    rcases hout : (t.run s).outcome with e' | r
    · have hrun : s.runFrom (t :: rest) acc = ⟨s, acc, some e'⟩ := by
        simp only [Suite.runFrom, hout]
      rw [hrun] at h
      simp at h
    · by_cases hstop : r.nonzero = false ∧ s.stop_on_error = true
      · have hrun : s.runFrom (t :: rest) acc =
            ⟨{ s with _results := s._results ++ [r], finished := true },
              acc ++ [r], none⟩ := by
          simp only [Suite.runFrom, hout, if_pos hstop]
        exact ⟨[r], by rw [hrun], by rw [hrun], by simp⟩
      · have hrun : s.runFrom (t :: rest) acc =
            Suite.runFrom { s with _results := s._results ++ [r] } rest
              (acc ++ [r]) := by
          simp only [Suite.runFrom, hout, if_neg hstop]
        rw [hrun] at h ⊢
        obtain ⟨L, h1, h2, h3⟩ := ih { s with _results := s._results ++ [r] }
          (acc ++ [r]) h
        refine ⟨r :: L, ?_, ?_, by simpa using Nat.succ_le_succ h3⟩
        · rw [h1]; simp
        · rw [h2]; simp

/-- When every pending test produces a result (no helper-instantiation
raise) and `stop_on_error` is set, the loop of `Suite.run` appends, in
order, exactly the results up to and including the first falsy one. -/
theorem Suite.runFrom_stop (s : Suite) (ts : List Test)
    (rlist acc : List Result) (hstop : s.stop_on_error = true)
    (hruns : ts.map (fun t => (t.run s).outcome) = rlist.map Except.ok) :
    (s.runFrom ts acc).suite._results =
      s._results ++ rlist.take ((rlist.findIdx fun r => !r.nonzero) + 1) ∧
    (s.runFrom ts acc).calls =
      acc ++ rlist.take ((rlist.findIdx fun r => !r.nonzero) + 1) ∧
    (s.runFrom ts acc).raised = none := by
  induction ts generalizing s rlist acc with
  | nil =>
    cases rlist with
    | nil => simp [Suite.runFrom]
    | cons r rs => simp at hruns
  | cons t rest ih =>
    cases rlist with
    | nil => simp at hruns
    | cons r rs =>
      simp only [List.map_cons, List.cons.injEq] at hruns
      obtain ⟨hout, hrest⟩ := hruns
      by_cases hnz : r.nonzero = false
      · have hrun : s.runFrom (t :: rest) acc =
            ⟨{ s with _results := s._results ++ [r], finished := true },
              acc ++ [r], none⟩ := by
          simp only [Suite.runFrom, hout, if_pos (And.intro hnz hstop)]
        rw [hrun]
        simp [List.findIdx_cons, hnz]
      · have hnz' : r.nonzero = true := by
          cases hrn : r.nonzero
          · exact absurd hrn hnz
          · rfl
        have hrun : s.runFrom (t :: rest) acc =
            Suite.runFrom { s with _results := s._results ++ [r] } rest
              (acc ++ [r]) := by
          simp only [Suite.runFrom, hout]
          rw [if_neg]
          intro hc
          exact hnz hc.1
        rw [hrun]
        have hrest' : rest.map
            (fun t => (t.run { s with _results := s._results ++ [r] }).outcome)
            = rs.map Except.ok := by
          simpa [Test.run_results_update] using hrest
        obtain ⟨h1, h2, h3⟩ := ih { s with _results := s._results ++ [r] } rs
          (acc ++ [r]) hstop hrest'
        refine ⟨?_, ?_, h3⟩
        · rw [h1]
          simp [List.findIdx_cons, hnz', List.append_assoc]
        · rw [h2]
          simp [List.findIdx_cons, hnz', List.append_assoc]

/-! Concrete fixtures used by the witness and counterexample theorems. -/

/-- A zero-argument user function that prints nothing and returns
normally. -/
def passingCallable (nm : String) : PyCallable :=
  ⟨nm, [], fun _ => ⟨"", none⟩⟩

/-- A zero-argument user function that raises `e`. -/
def raisingCallable (nm : String) (e : PyExc) : PyCallable :=
  ⟨nm, [], fun _ => ⟨"", some e⟩⟩

/-- A user function declaring two required parameters. -/
def twoArgCallable (nm : String) : PyCallable :=
  ⟨nm, ["first", "second"], fun _ => ⟨"", none⟩⟩

/-- A helper class whose constructor raises. -/
def brokenHelperClass : PyClass :=
  ⟨"IllegalCustomHelper", .error ⟨"TypeError", "missing argument"⟩⟩

/-!  C2.  `expect(E)` around code raising nothing. -/

/-- C2 (code bug): `expect(E)` around code that raises nothing does NOT
raise an `AssertionError`: the scope exits normally, because when the
guarded block raises nothing the generator inside `contextmanager` simply
resumes after `yield` and runs to completion, and the `try` body never sees
an exception.  This theorem evaluates the embedded `expect` at the failing
input (expected kind `ValueError`, body raising nothing) and shows that
nothing is raised, contradicting the claim (and the intent documented by
the nested `expect` checks in `tests.py`). -/
theorem expect_nothing_raised_passes_silently :
    expect "ValueError" none = none := rfl

/-!  C3.  `expect(E)` around raising code. -/

/-- C3 (confirmed): an exception of exactly the expected kind is suppressed
and the scope exits normally; an exception of any other kind is replaced by
an `AssertionError` (with the fixed message interpolating the expected
kind), so the original exception never propagates unchanged. -/
theorem expect_match_suppressed_mismatch_normalized (E : String) (e : PyExc) :
    (e.kind = E → expect E (some e) = none) ∧
    (e.kind ≠ E → expect E (some e) =
      some ⟨"AssertionError",
        "Unknown exception \x27" ++ E ++ "\x27 raised."⟩) := by
  constructor
  · intro h
    simp [expect, h]
  · intro h
    simp [expect, h]

/-- Witness for C3 at a concrete input: expecting `AttributeError` while the
body raises `KeyError` yields the `AssertionError`. -/
theorem expect_match_suppressed_mismatch_normalized_witness :
    ((⟨"KeyError", ""⟩ : PyExc).kind ≠ "AttributeError") ∧
    expect "AttributeError" (some ⟨"KeyError", ""⟩) =
      some ⟨"AssertionError",
        "Unknown exception \x27AttributeError\x27 raised."⟩ :=
  ⟨by decide,
    (expect_match_suppressed_mismatch_normalized "AttributeError"
      ⟨"KeyError", ""⟩).2 (by decide)⟩

/-!  C7.  `Suite.run` with zero registered tests. -/

/-- C7 (confirmed): running a suite with no registered tests raises the
`ValueError` that the spec names `NoTestsError`, before any test executes,
and has no side effect: the suite state is returned unchanged (so the
results stay empty and `finished` stays false) and the callback is never
invoked; `Suite.run` performs no progress-sink operation on any path, and
in particular none here. -/
theorem run_on_empty_suite_raises_without_side_effects (s : Suite)
    (h : s._tests = []) :
    (s.run).raised = some ⟨"ValueError", noTestsMessage s.title⟩ ∧
    (s.run).suite = s ∧ (s.run).calls = [] := by
  simp [Suite.run, h]

/-- Witness for C7 on a freshly created suite. -/
theorem run_on_empty_suite_raises_without_side_effects_witness :
    ((Suite.init "Empty" true)._tests = []) ∧
    ((Suite.init "Empty" true).run.raised =
        some ⟨"ValueError", noTestsMessage "Empty"⟩ ∧
      (Suite.init "Empty" true).run.suite = Suite.init "Empty" true ∧
      (Suite.init "Empty" true).run.calls = []) :=
  ⟨rfl, run_on_empty_suite_raises_without_side_effects
    (Suite.init "Empty" true) rfl⟩

/-!  C8.  Arity validation at registration time. -/

/-- C8 (confirmed): registering a function whose declared parameter count is
neither 0 nor 1 as a test, setup, or teardown raises the arity `ValueError`
(the ArityError of the spec) at registration time — the raise happens inside
the registration call, before any test could run — and the suite is left
unchanged (`applyOp` keeps the old state on a raising registration), so
previously registered tests are unaffected. -/
theorem arity_violation_rejected_at_registration (s : Suite) (f : PyCallable)
    (h0 : f.argNames.length ≠ 0) (h1 : f.argNames.length ≠ 1) :
    s.test f = .error ⟨"ValueError", arityMessage "test" f.name⟩ ∧
    s.setup f = .error ⟨"ValueError", arityMessage "setup" f.name⟩ ∧
    s.teardown f = .error ⟨"ValueError", arityMessage "teardown" f.name⟩ ∧
    applyOp s (Op.test f) = s ∧
    applyOp s (Op.setup f) = s ∧
    applyOp s (Op.teardown f) = s := by
  have hmk : ∀ role, _Function.make f role =
      .error ⟨"ValueError", arityMessage role f.name⟩ := by
    intro role
    simp [_Function.make, h0, h1]
  refine ⟨?_, ?_, ?_, ?_, ?_, ?_⟩ <;>
    simp [Suite.test, Suite.setup, Suite.teardown, Test.make, applyOp, regOr,
      hmk]

/-- Witness for C8: a two-parameter function is rejected by a fresh suite. -/
theorem arity_violation_rejected_at_registration_witness :
    ((twoArgCallable "illegal_test_function").argNames.length ≠ 0 ∧
      (twoArgCallable "illegal_test_function").argNames.length ≠ 1) ∧
    ((Suite.init "S" true).test (twoArgCallable "illegal_test_function") =
        .error ⟨"ValueError",
          arityMessage "test" "illegal_test_function"⟩ ∧
      (Suite.init "S" true).setup (twoArgCallable "illegal_test_function") =
        .error ⟨"ValueError",
          arityMessage "setup" "illegal_test_function"⟩ ∧
      (Suite.init "S" true).teardown
          (twoArgCallable "illegal_test_function") =
        .error ⟨"ValueError",
          arityMessage "teardown" "illegal_test_function"⟩ ∧
      applyOp (Suite.init "S" true)
          (Op.test (twoArgCallable "illegal_test_function")) =
        Suite.init "S" true ∧
      applyOp (Suite.init "S" true)
          (Op.setup (twoArgCallable "illegal_test_function")) =
        Suite.init "S" true ∧
      applyOp (Suite.init "S" true)
          (Op.teardown (twoArgCallable "illegal_test_function")) =
        Suite.init "S" true) :=
  ⟨⟨by decide, by decide⟩,
    arity_violation_rejected_at_registration (Suite.init "S" true)
      (twoArgCallable "illegal_test_function") (by decide) (by decide)⟩

/-- A successful `_Function.make` keeps the name of the wrapped function. -/
theorem _Function.make_name (f : PyCallable) (role : String) (fn : _Function)
    (h : _Function.make f role = .ok fn) : fn.name = f.name := by
  unfold _Function.make at h
  by_cases h0 : f.argNames.length = 0
  · rw [if_pos h0] at h
    cases h
    rfl
  · rw [if_neg h0] at h
    by_cases h1 : f.argNames.length = 1
    · rw [if_pos h1] at h
      cases h
      rfl
    · rw [if_neg h1] at h
      cases h

/-- Whenever the helper instantiates, the first user function `Test.run`
invokes is the setup currently bound in the suite it is run against. -/
theorem Test.run_trace_head (t : Test) (s : Suite) (hv : HelperVal)
    (hinst : s._helper.instantiate = .ok hv) :
    (t.run s).trace.head? = some s._setup.name := by
  simp only [Test.run, hinst]
  cases h1 : (s._setup.call hv).exc with
  | some e => rfl
  | none =>
    cases h2 : (t.function.call hv).exc with
    | some e => rfl
    | none =>
      cases h3 : (s._teardown.call hv).exc with
      | some e => rfl
      | none => rfl

/-!  C1.  Which setup/teardown/helper bindings a registered test uses. -/

/-- The C1 scenario: bind `setup_a`, register `my_test`, then rebind the
setup to `setup_b`, and only then run. -/
def c1Suite : Suite :=
  applyOps (Suite.init "C1" true)
    [Op.setup (passingCallable "setup_a"),
     Op.test (passingCallable "my_test"),
     Op.setup (passingCallable "setup_b")]

/-- The traces of running each registered test of the C1 scenario against
the suite as it stands at run time. -/
def c1Traces : List (List String) :=
  c1Suite._tests.map fun t => (t.run c1Suite).trace

/-- C1 (refuted as stated): in the C1 scenario the already-registered test
invokes `setup_b` — the setup bound at the moment of the run — and never
`setup_a`, the setup that was bound at the moment the test was registered.
`Test.run` reads `self.suite.get_setup()` at run time, so replacing the
setup after registration does change what the test invokes, contrary to the
claim. -/
theorem registered_test_runs_with_rebound_setup :
    (applyOps (Suite.init "C1" true)
      [Op.setup (passingCallable "setup_a"),
       Op.test (passingCallable "my_test")])._setup.name = "setup_a" ∧
    c1Suite._setup.name = "setup_b" ∧
    c1Traces = [["setup_b", "my_test", "<lambda>"]] ∧
    c1Traces ≠ [["setup_a", "my_test", "<lambda>"]] := by
  refine ⟨rfl, rfl, rfl, by decide⟩

/-- C1 (amended): the setup a registered test invokes when run is the one
the suite holds at the moment of the run: after registering a test and then
rebinding the setup, the test invokes the newly bound function first. -/
theorem registered_test_uses_bindings_at_run_time (s s1 s2 : Suite)
    (f g : PyCallable) (t : Test) (hv : HelperVal)
    (_hreg : s.test f = .ok s1)
    (_hmem : t ∈ s1._tests)
    (hset : s1.setup g = .ok s2)
    (hinst : s2._helper.instantiate = .ok hv) :
    (t.run s2).trace.head? = some g.name := by
  rcases hmk : _Function.make g "setup" with e | fn
  · unfold Suite.setup at hset
    rw [hmk] at hset
    cases hset
  · unfold Suite.setup at hset
    rw [hmk] at hset
    cases hset
    have hname := _Function.make_name g "setup" fn hmk
    rw [Test.run_trace_head t _ hv hinst]
    simpa using hname

/-- The suite reached by registering `tst` on a fresh suite. -/
def c1wSuite1 : Suite :=
  regOr (Suite.init "W" true) ((Suite.init "W" true).test (passingCallable "tst"))

instance : Inhabited _Function := ⟨_Function.null⟩

instance : Inhabited Test := ⟨⟨_Function.null, ""⟩⟩

/-- The test registered in `c1wSuite1`. -/
def c1wTest : Test :=
  c1wSuite1._tests.headI

/-- `c1wSuite1` after rebinding the setup to `new_setup`. -/
def c1wSuite2 : Suite :=
  regOr c1wSuite1 (c1wSuite1.setup (passingCallable "new_setup"))

/-- Witness for the amended C1 at concrete inputs. -/
theorem registered_test_uses_bindings_at_run_time_witness :
    ((Suite.init "W" true).test (passingCallable "tst") = .ok c1wSuite1 ∧
      c1wTest ∈ c1wSuite1._tests ∧
      c1wSuite1.setup (passingCallable "new_setup") = .ok c1wSuite2 ∧
      c1wSuite2._helper.instantiate = .ok HelperVal.blank) ∧
    (c1wTest.run c1wSuite2).trace.head? = some "new_setup" :=
  ⟨⟨rfl, List.mem_singleton_self c1wTest, rfl, rfl⟩,
    registered_test_uses_bindings_at_run_time (Suite.init "W" true)
      c1wSuite1 c1wSuite2 (passingCallable "tst")
      (passingCallable "new_setup") c1wTest HelperVal.blank rfl
      (List.mem_singleton_self c1wTest) rfl rfl⟩

/-!  C4.  The setup, test, teardown sequencing inside `Test.run`. -/

/-- C4 (confirmed): whenever the helper instantiates, `Test.run` invokes the
bound setup, then the test function, then the bound teardown, in that order:
the trace is the prefix of `[setup, test function, teardown]` that ends with
the first call that raised (the test function is invoked only when setup
returned normally and the teardown only when both earlier steps returned
normally; after a raise no further step executes). -/
theorem test_run_sequences_and_short_circuits (t : Test) (s : Suite)
    (hv : HelperVal) (hinst : s._helper.instantiate = .ok hv) :
    (t.run s).trace =
      if ((s._setup.call hv).exc).isSome then [s._setup.name]
      else if ((t.function.call hv).exc).isSome then
        [s._setup.name, t.function.name]
      else [s._setup.name, t.function.name, s._teardown.name] := by
  simp only [Test.run, hinst]
  cases h1 : (s._setup.call hv).exc with
  | some e => simp [h1]
  | none =>
    cases h2 : (t.function.call hv).exc with
    | some e => simp [h1, h2]
    | none =>
      cases h3 : (s._teardown.call hv).exc with
      | some e => simp [h1, h2, h3]
      | none => simp [h1, h2, h3]

/-- A test whose function raises `ZeroDivisionError`, used as witness
input. -/
def c4Test : Test :=
  (Test.make (raisingCallable "raise_exception"
    ⟨"ZeroDivisionError", ""⟩)).toOption.getD
    ⟨_Function.null, ""⟩

/-- Witness for C4: on a fresh suite (null setup and teardown) a test whose
function raises produces the trace that stops at the test function. -/
theorem test_run_sequences_and_short_circuits_witness :
    ((Suite.init "C4" true)._helper.instantiate = .ok HelperVal.blank) ∧
    (c4Test.run (Suite.init "C4" true)).trace =
      (if (((Suite.init "C4" true)._setup.call HelperVal.blank).exc).isSome
        then [(Suite.init "C4" true)._setup.name]
       else if ((c4Test.function.call HelperVal.blank).exc).isSome then
        [(Suite.init "C4" true)._setup.name, c4Test.function.name]
       else [(Suite.init "C4" true)._setup.name, c4Test.function.name,
        (Suite.init "C4" true)._teardown.name]) :=
  ⟨rfl, test_run_sequences_and_short_circuits c4Test
    (Suite.init "C4" true) HelperVal.blank rfl⟩

/-!  C6.  Classification of a run into Success and Failure results. -/

/-- The first exception raised by the setup, test-function, teardown
sequence (respecting that a later step only runs when the earlier ones
returned normally), or `none` when all three return normally. -/
def firstExc (t : Test) (s : Suite) (hv : HelperVal) : Option PyExc :=
  match (s._setup.call hv).exc with
  | some e => some e
  | none =>
    match (t.function.call hv).exc with
    | some e => some e
    | none => (s._teardown.call hv).exc

/-- C6 (confirmed): whenever the helper instantiates, a run in which some
step of the sequence raises `e` returns a `Failure` result — success flag
false, falsy under the boolean coercion `Result.nonzero`, traceback the
formatted trace of `e`, which contains the name of the type of `e` — and a
run in which all three steps return normally returns a `Success` result —
success flag true, truthy, empty traceback. -/
theorem test_run_result_classification (t : Test) (s : Suite)
    (hv : HelperVal) (hinst : s._helper.instantiate = .ok hv) :
    (∀ e, firstExc t s hv = some e →
      ∃ r, (t.run s).outcome = .ok r ∧ r.success = false ∧
        r.nonzero = false ∧ r.traceback = format_exc e ∧
        ∃ a b, r.traceback = a ++ (e.kind ++ b)) ∧
    (firstExc t s hv = none →
      ∃ r, (t.run s).outcome = .ok r ∧ r.success = true ∧
        r.nonzero = true ∧ r.traceback = "") := by
  have htb : ∀ e : PyExc, ∃ a b, format_exc e = a ++ (e.kind ++ b) := by
    intro e
    exact ⟨"Traceback (most recent call last):\n  ...\n", ": " ++ e.msg,
      (String.append_assoc _ _ _)⟩
  constructor
  · intro e he
    unfold firstExc at he
    simp only [Test.run, hinst]
    cases h1 : (s._setup.call hv).exc with
    | some e1 =>
      rw [h1] at he
      cases he
      exact ⟨_, rfl, rfl, rfl, rfl, htb e⟩
    | none =>
      rw [h1] at he
      cases h2 : (t.function.call hv).exc with
      | some e2 =>
        rw [h2] at he
        cases he
        exact ⟨_, rfl, rfl, rfl, rfl, htb e⟩
      | none =>
        rw [h2] at he
        cases h3 : (s._teardown.call hv).exc with
        | some e3 =>
          rw [h3] at he
          cases he
          exact ⟨_, rfl, rfl, rfl, rfl, htb e⟩
        | none =>
          rw [h3] at he
          cases he
  · intro he
    unfold firstExc at he
    simp only [Test.run, hinst]
    cases h1 : (s._setup.call hv).exc with
    | some e1 =>
      rw [h1] at he
      cases he
    | none =>
      rw [h1] at he
      cases h2 : (t.function.call hv).exc with
      | some e2 =>
        rw [h2] at he
        cases he
      | none =>
        rw [h2] at he
        cases h3 : (s._teardown.call hv).exc with
        | some e3 =>
          rw [h3] at he
          cases he
        | none => exact ⟨_, rfl, rfl, rfl, rfl⟩

/-- Witness for C6: the failing branch at the `c4Test` fixture, whose test
function raises `ZeroDivisionError`. -/
theorem test_run_result_classification_witness :
    ((Suite.init "C6" true)._helper.instantiate = .ok HelperVal.blank ∧
      firstExc c4Test (Suite.init "C6" true) HelperVal.blank =
        some ⟨"ZeroDivisionError", ""⟩) ∧
    (∃ r, (c4Test.run (Suite.init "C6" true)).outcome = .ok r ∧
      r.success = false ∧ r.nonzero = false ∧
      r.traceback = format_exc ⟨"ZeroDivisionError", ""⟩ ∧
      ∃ a b, r.traceback = a ++ ("ZeroDivisionError" ++ b)) :=
  ⟨⟨rfl, rfl⟩,
    (test_run_result_classification c4Test (Suite.init "C6" true)
        HelperVal.blank rfl).1 ⟨"ZeroDivisionError", ""⟩ rfl⟩

/-!  C10.  A raising helper constructor. -/

/-- C10 (confirmed): when the bound helper class cannot be constructed, the
`ValueError` that `_Helper.instantiate` raises (the InstantiationError of
the spec) is not converted into a `Failure` result: it escapes `Test.run`
with an empty trace (the instantiation happens before the capture scope and
the try/except are entered, so no user function runs), and it escapes
`Suite.run` leaving the suite exactly as it was — the callback is never
invoked, no result is appended, and `finished` is not set. -/
theorem helper_instantiation_error_propagates (s : Suite) (e0 : PyExc)
    (t0 : Test) (rest : List Test)
    (hcls : s._helper.cls.construct = .error e0)
    (htests : s._tests = t0 :: rest) :
    (t0.run s).outcome = .error ⟨"ValueError",
        "Unable to instantiate a " ++ s._helper.name ++ "() helper."⟩ ∧
    (t0.run s).trace = [] ∧
    (s.run).raised = some ⟨"ValueError",
        "Unable to instantiate a " ++ s._helper.name ++ "() helper."⟩ ∧
    (s.run).suite = s ∧ (s.run).calls = [] := by
  have hinst : s._helper.instantiate = .error ⟨"ValueError",
      "Unable to instantiate a " ++ s._helper.name ++ "() helper."⟩ := by
    simp [_Helper.instantiate, hcls]
  have h1 : (t0.run s).outcome = .error ⟨"ValueError",
      "Unable to instantiate a " ++ s._helper.name ++ "() helper."⟩ := by
    simp only [Test.run, hinst]
  have h2 : (t0.run s).trace = [] := by
    simp only [Test.run, hinst]
  have h3 : s.run = ⟨s, [], some ⟨"ValueError",
      "Unable to instantiate a " ++ s._helper.name ++ "() helper."⟩⟩ := by
    unfold Suite.run
    rw [htests]
    simp only [List.isEmpty_cons, Bool.false_eq_true, if_false]
    simp only [Suite.runFrom, h1]
  rw [h3]
  exact ⟨h1, h2, rfl, rfl, rfl⟩

/-- The C10 scenario: a fresh suite with a broken helper class and one
registered test. -/
def c10Suite : Suite :=
  applyOps (Suite.init "C10" true)
    [Op.helper brokenHelperClass, Op.test (passingCallable "tst")]

/-- The test registered in the C10 scenario. -/
def c10Test : Test :=
  c10Suite._tests.headI

/-- Witness for C10 at the concrete scenario. -/
theorem helper_instantiation_error_propagates_witness :
    (c10Suite._helper.cls.construct =
        .error ⟨"TypeError", "missing argument"⟩ ∧
      c10Suite._tests = c10Test :: []) ∧
    ((c10Test.run c10Suite).outcome = .error ⟨"ValueError",
        "Unable to instantiate a IllegalCustomHelper() helper."⟩ ∧
      (c10Test.run c10Suite).trace = [] ∧
      (c10Suite.run).raised = some ⟨"ValueError",
        "Unable to instantiate a IllegalCustomHelper() helper."⟩ ∧
      (c10Suite.run).suite = c10Suite ∧ (c10Suite.run).calls = []) :=
  ⟨⟨rfl, rfl⟩,
    helper_instantiation_error_propagates c10Suite
      ⟨"TypeError", "missing argument"⟩ c10Test [] rfl rfl⟩

/-!  C5.  Stop-on-error truncation. -/

/-- C5 (confirmed): on a not-yet-run suite with at least one test and
`stop_on_error` set, when every test produces a result (outcome list
`rlist`, in registration order), `Suite.run` records, in registration
order, exactly the results up to and including the first `Failure`; the
recorded sequence has length `(index of first failure) + 1`, or the full
length when no failure occurs (`List.findIdx` returns the list length
then, so the `min` collapses to the length); the callback saw exactly the
recorded results, so the tests after the first failure were neither run nor
recorded. -/
theorem stop_on_error_truncates_at_first_failure (s : Suite)
    (rlist : List Result)
    (hstop : s.stop_on_error = true)
    (hfresh : s._results = [])
    (hne : s._tests ≠ [])
    (hruns : s._tests.map (fun t => (t.run s).outcome) = rlist.map Except.ok) :
    (s.run).suite._results =
      rlist.take ((rlist.findIdx fun r => !r.nonzero) + 1) ∧
    (s.run).suite._results.length =
      min ((rlist.findIdx fun r => !r.nonzero) + 1) rlist.length ∧
    (s.run).calls = (s.run).suite._results ∧
    (s.run).raised = none := by
  have hne' : s._tests.isEmpty = false := by
    cases h : s._tests with
    | nil => exact absurd h hne
    | cons a l => rfl
  have hrun : s.run = s.runFrom s._tests [] := by
    simp [Suite.run, hne']
  obtain ⟨h1, h2, h3⟩ := Suite.runFrom_stop s s._tests rlist [] hstop hruns
  have hres1 : (s.run).suite._results =
      rlist.take ((rlist.findIdx fun r => !r.nonzero) + 1) := by
    rw [hrun, h1, hfresh]
    exact List.nil_append _
  have hcalls : (s.run).calls =
      rlist.take ((rlist.findIdx fun r => !r.nonzero) + 1) := by
    rw [hrun, h2]
    exact List.nil_append _
  refine ⟨hres1, ?_, ?_, ?_⟩
  · rw [hres1, List.length_take]
  · rw [hcalls, hres1]
  · rw [hrun]
    exact h3

/-- The C5 scenario: three tests, the middle one failing, with
stop-on-error enabled. -/
def c5Suite : Suite :=
  applyOps (Suite.init "C5" true)
    [Op.test (passingCallable "test_one"),
     Op.test (raisingCallable "test_two" ⟨"AssertionError", ""⟩),
     Op.test (passingCallable "test_three")]

/-- The results the three C5 tests produce when run individually. -/
def c5Results : List Result :=
  [⟨"Test One", true, "", ""⟩,
   ⟨"Test Two", false, "", format_exc ⟨"AssertionError", ""⟩⟩,
   ⟨"Test Three", true, "", ""⟩]

/-- Witness for C5: the run records the first two results (failure index 1,
so length 2) and stops. -/
theorem stop_on_error_truncates_at_first_failure_witness :
    (c5Suite.stop_on_error = true ∧ c5Suite._results = [] ∧
      c5Suite._tests ≠ [] ∧
      c5Suite._tests.map (fun t => (t.run c5Suite).outcome) =
        c5Results.map Except.ok) ∧
    ((c5Suite.run).suite._results =
        c5Results.take ((c5Results.findIdx fun r => !r.nonzero) + 1) ∧
      (c5Suite.run).suite._results.length =
        min ((c5Results.findIdx fun r => !r.nonzero) + 1) c5Results.length ∧
      (c5Suite.run).calls = (c5Suite.run).suite._results ∧
      (c5Suite.run).raised = none) :=
  ⟨⟨rfl, rfl,
      fun h => absurd (congrArg List.length h) (by decide), rfl⟩,
    stop_on_error_truncates_at_first_failure c5Suite c5Results rfl rfl
      (fun h => absurd (congrArg List.length h) (by decide)) rfl⟩

/-!  C9.  The suite state invariant. -/

/-- The C9 scenario: one passing test, then `run` invoked twice. -/
def c9Suite : Suite :=
  applyOps (Suite.init "C9" true)
    [Op.test (passingCallable "test_pass"), Op.run, Op.run]

/-- C9 (refuted as stated): the state reached by registering one test and
calling `run` twice is a reachable suite state whose results sequence is
strictly longer than its tests sequence — `Suite.run` appends to
`self._results` without clearing it, so a second completed run doubles the
results.  This falsifies the invariant "results length never exceeds tests
length" over all reachable states. -/
theorem results_outgrow_tests_after_second_run :
    c9Suite._results.length = 2 ∧ c9Suite._tests.length = 1 ∧
    ¬ c9Suite._results.length ≤ c9Suite._tests.length := by
  refine ⟨rfl, rfl, by decide⟩

/-- When `Suite.run` raises, the suite is left unchanged and the callback
was never invoked: the raise is either the no-tests check, which fires
before the loop, or a helper-instantiation error, which fires on the first
test of the loop before any callback call or append. -/
theorem Suite.run_raised (s : Suite) (e : PyExc)
    (h : (s.run).raised = some e) :
    (s.run).suite = s ∧ (s.run).calls = [] := by
  by_cases hemp : s._tests.isEmpty
  · simp [Suite.run, hemp]
  · have hrun : s.run = s.runFrom s._tests [] := by
      simp [Suite.run, hemp]
    rw [hrun] at h ⊢
    obtain ⟨h1, h2, _⟩ := Suite.runFrom_raised s s._tests [] e h
    exact ⟨h1, h2⟩

/-- When `Suite.run` returns normally it appends at most one result per
registered test, passes exactly the appended results to the callback, sets
`finished`, and touches nothing else. -/
theorem Suite.run_done (s : Suite) (h : (s.run).raised = none) :
    ∃ L : List Result,
      (s.run).suite =
        { s with _results := s._results ++ L, finished := true } ∧
      (s.run).calls = L ∧ L.length ≤ s._tests.length := by
  by_cases hemp : s._tests.isEmpty
  · simp [Suite.run, hemp] at h
  · have hrun : s.run = s.runFrom s._tests [] := by
      simp [Suite.run, hemp]
    rw [hrun] at h ⊢
    obtain ⟨L, h1, h2, h3⟩ := Suite.runFrom_done s s._tests [] h
    refine ⟨L, h1, by simpa using h2, ?_⟩
    exact h3.trans (Nat.le_refl _)

/-- The spec phrase "results is fully populated by a completed run": the
current results are exactly what one completed `Suite.run`, started on a
not-yet-run suite, produced (tests may have been registered since; they
only grow the tests list). -/
def FullyPopulated (s : Suite) : Prop :=
  ∃ s0 : Suite, s0.finished = false ∧ s0._results = [] ∧
    (s0.run).raised = none ∧
    s._results = ((s0.run).suite)._results ∧
    s0._tests.length ≤ s._tests.length

/-- The C9 state invariant, for suites driven through at most one `run`. -/
def SuiteInv (s : Suite) : Prop :=
  s._results.length ≤ s._tests.length ∧
  (s.finished = false → s._results = []) ∧
  (s.finished = true → FullyPopulated s)

/-- A non-`run` operation never touches `finished` or the results and can
only grow the tests list. -/
theorem applyOp_not_run (s : Suite) (op : Op) (h : op.isRun = false) :
    (applyOp s op)._results = s._results ∧
    (applyOp s op).finished = s.finished ∧
    s._tests.length ≤ (applyOp s op)._tests.length := by
  cases op with
  | test f =>
    cases hm : Test.make f with
    | error e => simp [applyOp, Suite.test, hm, regOr]
    | ok t => simp [applyOp, Suite.test, hm, regOr]
  | skip f =>
    cases hm : _Function.make f "skipped" with
    | error e => simp [applyOp, Suite.skip, hm, regOr]
    | ok fn => simp [applyOp, Suite.skip, hm, regOr]
  | setup f =>
    cases hm : _Function.make f "setup" with
    | error e => simp [applyOp, Suite.setup, hm, regOr]
    | ok fn => simp [applyOp, Suite.setup, hm, regOr]
  | teardown f =>
    cases hm : _Function.make f "teardown" with
    | error e => simp [applyOp, Suite.teardown, hm, regOr]
    | ok fn => simp [applyOp, Suite.teardown, hm, regOr]
  | helper c => simp [applyOp, Suite.helper]
  | run => simp [Op.isRun] at h

/-- Registration-only operation sequences preserve the C9 invariant. -/
theorem applyOps_no_run_preserves (ops : List Op) (s : Suite)
    (h : countRun ops = 0) (hinv : SuiteInv s) :
    SuiteInv (applyOps s ops) := by
  induction ops generalizing s with
  | nil => exact hinv
  | cons op rest ih =>
    have hop : op.isRun = false := by
      cases hb : op.isRun
      · rfl
      · rw [countRun, hb] at h
        simp at h
    have hrest : countRun rest = 0 := by
      rw [countRun, hop] at h
      simpa using h
    have hstep : applyOps s (op :: rest) = applyOps (applyOp s op) rest := rfl
    rw [hstep]
    obtain ⟨hr, hf, ht⟩ := applyOp_not_run s op hop
    obtain ⟨i1, i2, i3⟩ := hinv
    refine ih (applyOp s op) hrest ⟨?_, ?_, ?_⟩
    · rw [hr]
      exact i1.trans ht
    · intro hfin
      rw [hr]
      exact i2 (hf ▸ hfin)
    · intro hfin
      obtain ⟨s0, j1, j2, j3, j4, j5⟩ := i3 (hf ▸ hfin)
      exact ⟨s0, j1, j2, j3, hr ▸ j4, j5.trans ht⟩

/-- Operation sequences containing at most one `run` preserve freshness into
the C9 invariant. -/
theorem applyOps_single_run (ops : List Op) (s : Suite)
    (hrun : countRun ops ≤ 1) (hfin : s.finished = false)
    (hres : s._results = []) : SuiteInv (applyOps s ops) := by
  induction ops generalizing s with
  | nil =>
    have hid : applyOps s [] = s := rfl
    rw [hid]
    refine ⟨by simp [hres], fun _ => hres, fun h => ?_⟩
    rw [hfin] at h
    cases h
  | cons op rest ih =>
    have hstep : applyOps s (op :: rest) = applyOps (applyOp s op) rest := rfl
    rw [hstep]
    cases hop : op.isRun
    · have hrest : countRun rest ≤ 1 := by
        rw [countRun, hop] at hrun
        simpa using hrun
      obtain ⟨hr, hf, _⟩ := applyOp_not_run s op hop
      exact ih (applyOp s op) hrest (hf.trans hfin) (hr.trans hres)
    · have hopr : op = Op.run := by
        cases op <;> simp [Op.isRun] at hop <;> rfl
      subst hopr
      have hrest : countRun rest = 0 := by
        rw [countRun] at hrun
        simp only [Op.isRun, if_true] at hrun
        omega
      have hinv1 : SuiteInv (applyOp s Op.run) := by
        show SuiteInv (s.run).suite
        cases hraised : (s.run).raised with
        | some e =>
          obtain ⟨h1, _⟩ := Suite.run_raised s e hraised
          rw [h1]
          refine ⟨by simp [hres], fun _ => hres, fun h => ?_⟩
          rw [hfin] at h
          cases h
        | none =>
          obtain ⟨L, h1, h2, h3⟩ := Suite.run_done s hraised
          refine ⟨?_, ?_, ?_⟩
          · rw [h1]
            simpa [hres] using h3
          · intro hfin'
            rw [h1] at hfin'
            simp at hfin'
          · intro _
            refine ⟨s, hfin, hres, hraised, rfl, ?_⟩
            rw [h1]
      exact applyOps_no_run_preserves rest (applyOp s Op.run) hrest hinv1

/-- C9 (amended): over every state reachable from a fresh suite by
registrations and at most one `run` invocation (`Suite.run` appends to the
results without clearing them, so a second `run` breaks the length bound —
see the counterexample): the results length never exceeds the tests length;
while `finished` is false the results are empty and iterating the suite is
an `AssertionError`; and once `finished` is true the results are exactly
what the one completed run populated, and iteration yields them. -/
theorem suite_invariant_with_single_run (title : String) (stop : Bool)
    (ops : List Op) (hrun : countRun ops ≤ 1) :
    (applyOps (Suite.init title stop) ops)._results.length ≤
      (applyOps (Suite.init title stop) ops)._tests.length ∧
    ((applyOps (Suite.init title stop) ops).finished = false →
      (applyOps (Suite.init title stop) ops)._results = [] ∧
      (applyOps (Suite.init title stop) ops).iter =
        .error ⟨"AssertionError", ""⟩) ∧
    ((applyOps (Suite.init title stop) ops).finished = true →
      (applyOps (Suite.init title stop) ops).iter =
        .ok (applyOps (Suite.init title stop) ops)._results ∧
      FullyPopulated (applyOps (Suite.init title stop) ops)) := by
  obtain ⟨i1, i2, i3⟩ := applyOps_single_run ops (Suite.init title stop)
    hrun rfl rfl
  refine ⟨i1, fun hfin => ⟨i2 hfin, ?_⟩, fun hfin => ⟨?_, i3 hfin⟩⟩
  · simp [Suite.iter, hfin]
  · simp [Suite.iter, hfin]

/-- Witness for the amended C9: one registered test and one run. -/
theorem suite_invariant_with_single_run_witness :
    (countRun [Op.test (passingCallable "test_pass"), Op.run] ≤ 1) ∧
    ((applyOps (Suite.init "W9" true)
        [Op.test (passingCallable "test_pass"), Op.run])._results.length ≤
      (applyOps (Suite.init "W9" true)
        [Op.test (passingCallable "test_pass"), Op.run])._tests.length ∧
    ((applyOps (Suite.init "W9" true)
        [Op.test (passingCallable "test_pass"), Op.run]).finished = false →
      (applyOps (Suite.init "W9" true)
        [Op.test (passingCallable "test_pass"), Op.run])._results = [] ∧
      (applyOps (Suite.init "W9" true)
        [Op.test (passingCallable "test_pass"), Op.run]).iter =
        .error ⟨"AssertionError", ""⟩) ∧
    ((applyOps (Suite.init "W9" true)
        [Op.test (passingCallable "test_pass"), Op.run]).finished = true →
      (applyOps (Suite.init "W9" true)
        [Op.test (passingCallable "test_pass"), Op.run]).iter =
        .ok (applyOps (Suite.init "W9" true)
          [Op.test (passingCallable "test_pass"), Op.run])._results ∧
      FullyPopulated (applyOps (Suite.init "W9" true)
        [Op.test (passingCallable "test_pass"), Op.run]))) :=
  ⟨by decide,
    suite_invariant_with_single_run "W9" true
      [Op.test (passingCallable "test_pass"), Op.run] (by decide)⟩

end Framework
